import Mathlib

/-!
Verification of the butterfly-curve geometry generator and update contract
from `src/script.tsx`.

The source is a TypeScript/three.js program.  We shallowly embed the parts
the specification talks about:

* JavaScript numbers are modelled as real numbers (`ℝ`); `Math.sin`,
  `Math.cos`, `Math.exp`, `Math.pow`, `Math.PI` become `Real.sin`,
  `Real.cos`, `Real.exp`, `(· ^ ·)`, `Real.pi`.
* The JavaScript remainder operator `%` (truncated remainder) is `jsMod`.
* `THREE.Color.setHSL` is modelled after the three.js source
  (`euclideanModulo` on the hue, clamping of saturation and lightness,
  `hue2rgb` piecewise conversion); colour-space management is the identity.
* The `for` loop of `createButterflyGeometry`, which pushes three numbers
  per iteration into flat arrays, is modelled as `tripleList`: the
  concatenation over `i ∈ [0, steps)` of the three values pushed at
  iteration `i`.  A negative or zero `steps` yields the empty list, exactly
  as the JavaScript loop `for (let i = 0; i < steps; i++)` does.
* `THREE.BufferAttribute`/`THREE.BufferGeometry` are records holding the
  flat array, the item size, and the attached attributes.
* `updateButterfly` (lines 151–158) is modelled as a state transition on an
  application state that tracks, besides the geometry attached to each
  wing, the set of live (allocated and not yet disposed) geometry ids, and
  emits the ordered trace of `dispose`/assignment events the function
  performs.
-/

/-- Truncation toward zero, as JavaScript number-to-integer truncation. -/
noncomputable def jsTrunc (x : ℝ) : ℤ :=
  if 0 ≤ x then ⌊x⌋ else ⌈x⌉

/-- JavaScript remainder operator `a % b`: `a - b * trunc (a / b)`. -/
noncomputable def jsMod (a b : ℝ) : ℝ :=
  a - b * (jsTrunc (a / b) : ℝ)

/-- Clamp as in three.js `MathUtils.clamp`: `Math.max(min, Math.min(max, value))`. -/
noncomputable def clamp (value lo hi : ℝ) : ℝ :=
  max lo (min hi value)

/-- Euclidean modulo as in three.js `MathUtils.euclideanModulo`: `((n % m) + m) % m`. -/
noncomputable def euclideanModulo (n m : ℝ) : ℝ :=
  jsMod (jsMod n m + m) m

/-- Piecewise hue-to-channel helper from the three.js `Color` source. -/
noncomputable def hue2rgb (p q t : ℝ) : ℝ :=
  let t1 := if t < 0 then t + 1 else t
  let t2 := if t1 > 1 then t1 - 1 else t1
  if t2 < 1 / 6 then p + (q - p) * 6 * t2
  else if t2 < 1 / 2 then q
  else if t2 < 2 / 3 then p + (q - p) * 6 * (2 / 3 - t2)
  else p

/-- The HSL-to-RGB conversion performed by `THREE.Color.setHSL`
(three.js source; colour-space management modelled as the identity). -/
noncomputable def setHSL (h s l : ℝ) : ℝ × ℝ × ℝ :=
  let h1 := euclideanModulo h 1
  let s1 := clamp s 0 1
  let l1 := clamp l 0 1
  if s1 = 0 then (l1, l1, l1)
  else
    let p := if l1 ≤ 0.5 then l1 * (1 + s1) else l1 + s1 - l1 * s1
    let q := 2 * l1 - p
    (hue2rgb q p (h1 + 1 / 3), hue2rgb q p h1, hue2rgb q p (h1 - 1 / 3))

/-- The `hsl` parameter record `{h, s, l}` of `createButterflyGeometry`. -/
structure HSL where
  h : ℝ
  s : ℝ
  l : ℝ

/-- Parametric angle of iteration `i`: `const t = (i / steps) * 24 * Math.PI`
(line 26). -/
noncomputable def tOf (steps : ℤ) (i : ℕ) : ℝ :=
  (i : ℝ) / (steps : ℝ) * 24 * Real.pi

/-- Butterfly-curve radius (line 27):
`Math.exp(Math.sin(t)) - 2 * Math.cos(4 * t) + Math.pow(Math.sin((2 * t - Math.PI) / 24), 5)`. -/
noncomputable def rOf (t : ℝ) : ℝ :=
  Real.exp (Real.sin t) - 2 * Real.cos (4 * t) +
    Real.sin ((2 * t - Real.pi) / 24) ^ 5

/-- The three values pushed into `pointsLeft` at iteration `i`
(lines 26–34): `x = r * sin t`, `y = r * cos t`, `z = sin(2t) * 0.5`. -/
noncomputable def leftPoint (steps : ℤ) (i : ℕ) : ℝ × ℝ × ℝ :=
  let t := tOf steps i
  let r := rOf t
  (r * Real.sin t, r * Real.cos t, Real.sin (2 * t) * 0.5)

/-- The three values pushed into `pointsRight` at iteration `i`
(line 35): `(-x, y, z)`. -/
noncomputable def rightPoint (steps : ℤ) (i : ℕ) : ℝ × ℝ × ℝ :=
  (-(leftPoint steps i).1, (leftPoint steps i).2.1, (leftPoint steps i).2.2)

/-- Hue passed to `setHSL` at colour fraction `pct` (line 42):
`(h - 0.3 * pct + 1) % 1`. -/
noncomputable def hueArg (h pct : ℝ) : ℝ :=
  jsMod (h - 0.3 * pct + 1) 1

/-- Lightness passed to `setHSL` at iteration `i` (lines 38 and 44):
`l * pct` with `pct = i / steps`. -/
noncomputable def lightnessArg (steps : ℤ) (hsl : HSL) (i : ℕ) : ℝ :=
  hsl.l * ((i : ℝ) / (steps : ℝ))

/-- The RGB triple pushed into `colors` at iteration `i` (lines 38–46). -/
noncomputable def colorAt (steps : ℤ) (hsl : HSL) (i : ℕ) : ℝ × ℝ × ℝ :=
  let pct : ℝ := (i : ℝ) / (steps : ℝ)
  setHSL (hueArg hsl.h pct) hsl.s (hsl.l * pct)

/-- Flat array built by a loop that pushes three values per iteration:
the concatenation over `i ∈ [0, n)` of `[f i .1, f i .2.1, f i .2.2]`. -/
noncomputable def tripleList (f : ℕ → ℝ × ℝ × ℝ) (n : ℕ) : List ℝ :=
  (List.range n).flatMap fun i => [(f i).1, (f i).2.1, (f i).2.2]

/-- A `THREE.BufferAttribute`: a flat array together with its item size. -/
structure BufferAttribute where
  array : List ℝ
  itemSize : ℕ

/-- Entry count of a buffer attribute: `array.length / itemSize`
(three.js `BufferAttribute` constructor). -/
def BufferAttribute.count (a : BufferAttribute) : ℕ :=
  a.array.length / a.itemSize

/-- The `i`-th item of an attribute of item size 3, as a triple
(out-of-range components read as 0). -/
def BufferAttribute.triple (a : BufferAttribute) (i : ℕ) : ℝ × ℝ × ℝ :=
  (a.array.getD (3 * i) 0, a.array.getD (3 * i + 1) 0, a.array.getD (3 * i + 2) 0)

/-- A `THREE.BufferGeometry` with its `position` and `color` attributes set. -/
structure BufferGeometry where
  position : BufferAttribute
  color : BufferAttribute

/-- The geometry generator `createButterflyGeometry(steps, hsl)`
(lines 19–66): builds the flat `pointsLeft`, `pointsRight` and `colors`
arrays, wraps each in an item-size-3 attribute, and returns the pair
`(geometryLeft, geometryRight)`; the colour attribute is the same object on
both geometries (lines 62–63). -/
noncomputable def createButterflyGeometry (steps : ℤ) (hsl : HSL) :
    BufferGeometry × BufferGeometry :=
  let pointsLeft := tripleList (leftPoint steps) steps.toNat
  let pointsRight := tripleList (rightPoint steps) steps.toNat
  let colors := tripleList (colorAt steps hsl) steps.toNat
  let attributeLeft : BufferAttribute := ⟨pointsLeft, 3⟩
  let attributeRight : BufferAttribute := ⟨pointsRight, 3⟩
  let colorAttribute : BufferAttribute := ⟨colors, 3⟩
  (⟨attributeLeft, colorAttribute⟩, ⟨attributeRight, colorAttribute⟩)

/-- Identifier of a wing object (`wingLeft` is a `THREE.Points`, `wingRight`
a `THREE.Line`; only the identity matters here). -/
inductive WingId where
  | left
  | right
  deriving DecidableEq

/-- Observable resource events performed by `updateButterfly`:
`dispose id` frees the geometry with allocation id `id`
(`wing.geometry.dispose()`), and `assign w id` overwrites wing `w`'s
geometry reference with the geometry `id` (`wing.geometry = ...`). -/
inductive GeomEvent where
  | dispose (id : ℕ)
  | assign (w : WingId) (id : ℕ)
  deriving DecidableEq

/-- The `butterflySettings` record as far as geometry is concerned. -/
structure Settings where
  steps : ℤ
  hsl : HSL

/-- Application state for the update contract: the allocation id and
content of the geometry attached to each wing, the set of live (allocated,
not yet disposed) geometry ids, and a fresh-id counter. -/
structure AppState where
  leftId : ℕ
  rightId : ℕ
  leftGeom : BufferGeometry
  rightGeom : BufferGeometry
  live : Finset ℕ
  nextId : ℕ

/-- The update contract `updateButterfly` (lines 151–158): recompute the
two geometries from the current settings (allocating two fresh ids),
dispose each wing's outgoing geometry, then assign the new geometries.
Returns the new state and the ordered event trace
`[dispose old-left, dispose old-right, assign left, assign right]`,
mirroring the statement order of lines 154–157. -/
noncomputable def updateButterfly (s : Settings) (st : AppState) :
    AppState × List GeomEvent :=
  let g := createButterflyGeometry s.steps s.hsl
  let lid := st.nextId
  let rid := st.nextId + 1
  (⟨lid, rid, g.1, g.2,
     (st.live \ {st.leftId, st.rightId}) ∪ {lid, rid}, st.nextId + 2⟩,
   [GeomEvent.dispose st.leftId, GeomEvent.dispose st.rightId,
    GeomEvent.assign WingId.left lid, GeomEvent.assign WingId.right rid])

/-- A concrete application state (two empty geometries attached, ids 0 and
1 live), used to instantiate the update-contract theorems. -/
def initialState : AppState :=
  ⟨0, 1, ⟨⟨[], 3⟩, ⟨[], 3⟩⟩, ⟨⟨[], 3⟩, ⟨[], 3⟩⟩, {0, 1}, 2⟩

lemma tripleList_length (f : ℕ → ℝ × ℝ × ℝ) (n : ℕ) :
    (tripleList f n).length = 3 * n := by
  induction n with
  | zero => simp [tripleList]
  | succ k ih =>
    rw [tripleList, List.range_succ, List.flatMap_append, ← tripleList]
    simp [ih]
    ring

lemma tripleList_getD (f : ℕ → ℝ × ℝ × ℝ) (n i : ℕ) (hi : i < n) :
    (tripleList f n).getD (3 * i) 0 = (f i).1 ∧
    (tripleList f n).getD (3 * i + 1) 0 = (f i).2.1 ∧
    (tripleList f n).getD (3 * i + 2) 0 = (f i).2.2 := by
  induction n with
  | zero => omega
  | succ k ih =>
    rw [tripleList, List.range_succ, List.flatMap_append, ← tripleList]
    rcases Nat.lt_or_ge i k with h | h
    · have hlen : (tripleList f k).length = 3 * k := tripleList_length f k
      have h0 : 3 * i < (tripleList f k).length := by omega
      have h1 : 3 * i + 1 < (tripleList f k).length := by omega
      have h2 : 3 * i + 2 < (tripleList f k).length := by omega
      rw [List.getD_append _ _ _ _ h0, List.getD_append _ _ _ _ h1,
        List.getD_append _ _ _ _ h2]
      exact ih h
    · have hik : i = k := by omega
      subst hik
      have hlen : (tripleList f i).length = 3 * i := tripleList_length f i
      have h0 : (tripleList f i).length ≤ 3 * i := by omega
      have h1 : (tripleList f i).length ≤ 3 * i + 1 := by omega
      have h2 : (tripleList f i).length ≤ 3 * i + 2 := by omega
      rw [List.getD_append_right _ _ _ _ h0, List.getD_append_right _ _ _ _ h1,
        List.getD_append_right _ _ _ _ h2, hlen]
      simp

lemma leftPoint_tripleAt (N i : ℕ) (hsl : HSL) (hi : i < N) :
    (createButterflyGeometry (N : ℤ) hsl).1.position.triple i =
      leftPoint (N : ℤ) i := by
  have hi' : i < ((N : ℤ)).toNat := by omega
  obtain ⟨h0, h1, h2⟩ := tripleList_getD (leftPoint (N : ℤ)) ((N : ℤ)).toNat i hi'
  simp only [createButterflyGeometry, BufferAttribute.triple]
  rw [h0, h1, h2]

lemma rightPoint_tripleAt (N i : ℕ) (hsl : HSL) (hi : i < N) :
    (createButterflyGeometry (N : ℤ) hsl).2.position.triple i =
      rightPoint (N : ℤ) i := by
  have hi' : i < ((N : ℤ)).toNat := by omega
  obtain ⟨h0, h1, h2⟩ := tripleList_getD (rightPoint (N : ℤ)) ((N : ℤ)).toNat i hi'
  simp only [createButterflyGeometry, BufferAttribute.triple]
  rw [h0, h1, h2]

lemma colorAt_tripleAt (N i : ℕ) (hsl : HSL) (hi : i < N) :
    (createButterflyGeometry (N : ℤ) hsl).1.color.triple i =
      colorAt (N : ℤ) hsl i := by
  have hi' : i < ((N : ℤ)).toNat := by omega
  obtain ⟨h0, h1, h2⟩ := tripleList_getD (colorAt (N : ℤ) hsl) ((N : ℤ)).toNat i hi'
  simp only [createButterflyGeometry, BufferAttribute.triple]
  rw [h0, h1, h2]

/-- C1: for every integer `N > 0` and every sample index `i ∈ [0, N)`, the
left point produced by `createButterflyGeometry` at index `i` equals
`(r·sin t, r·cos t, 0.5·sin 2t)` where `t = (i/N)·24π` and
`r = e^sin(t) − 2·cos(4t) + sin((2t−π)/24)^5`. -/
theorem createButterflyGeometry_C1_left_point_formula (N i : ℕ) (hsl : HSL)
    (hN : 0 < N) (hi : i < N) :
    (createButterflyGeometry (N : ℤ) hsl).1.position.triple i =
      ((Real.exp (Real.sin ((i : ℝ) / (N : ℝ) * 24 * Real.pi)) -
          2 * Real.cos (4 * ((i : ℝ) / (N : ℝ) * 24 * Real.pi)) +
          Real.sin ((2 * ((i : ℝ) / (N : ℝ) * 24 * Real.pi) - Real.pi) / 24) ^ 5) *
        Real.sin ((i : ℝ) / (N : ℝ) * 24 * Real.pi),
       (Real.exp (Real.sin ((i : ℝ) / (N : ℝ) * 24 * Real.pi)) -
          2 * Real.cos (4 * ((i : ℝ) / (N : ℝ) * 24 * Real.pi)) +
          Real.sin ((2 * ((i : ℝ) / (N : ℝ) * 24 * Real.pi) - Real.pi) / 24) ^ 5) *
        Real.cos ((i : ℝ) / (N : ℝ) * 24 * Real.pi),
       0.5 * Real.sin (2 * ((i : ℝ) / (N : ℝ) * 24 * Real.pi))) := by
  rw [leftPoint_tripleAt N i hsl hi]
  simp only [leftPoint, tOf, rOf]
  push_cast
  refine Prod.ext rfl (Prod.ext rfl ?_)
  simp only
  ring

/-- Witness for C1 at `N = 1`, `i = 0`, `hsl = (0.85, 0.8, 0.5)`. -/
theorem createButterflyGeometry_C1_witness :
    (createButterflyGeometry ((1 : ℕ) : ℤ) ⟨0.85, 0.8, 0.5⟩).1.position.triple 0 =
      ((Real.exp (Real.sin (((0 : ℕ) : ℝ) / ((1 : ℕ) : ℝ) * 24 * Real.pi)) -
          2 * Real.cos (4 * (((0 : ℕ) : ℝ) / ((1 : ℕ) : ℝ) * 24 * Real.pi)) +
          Real.sin ((2 * (((0 : ℕ) : ℝ) / ((1 : ℕ) : ℝ) * 24 * Real.pi) - Real.pi) / 24) ^ 5) *
        Real.sin (((0 : ℕ) : ℝ) / ((1 : ℕ) : ℝ) * 24 * Real.pi),
       (Real.exp (Real.sin (((0 : ℕ) : ℝ) / ((1 : ℕ) : ℝ) * 24 * Real.pi)) -
          2 * Real.cos (4 * (((0 : ℕ) : ℝ) / ((1 : ℕ) : ℝ) * 24 * Real.pi)) +
          Real.sin ((2 * (((0 : ℕ) : ℝ) / ((1 : ℕ) : ℝ) * 24 * Real.pi) - Real.pi) / 24) ^ 5) *
        Real.cos (((0 : ℕ) : ℝ) / ((1 : ℕ) : ℝ) * 24 * Real.pi),
       0.5 * Real.sin (2 * (((0 : ℕ) : ℝ) / ((1 : ℕ) : ℝ) * 24 * Real.pi))) :=
  createButterflyGeometry_C1_left_point_formula 1 0 ⟨0.85, 0.8, 0.5⟩
    (by norm_num) (by norm_num)

/-- C2: for every integer `N > 0` and every hsl input,
`createButterflyGeometry(N, hsl)` returns a left point buffer, a right
point buffer, and a colour buffer each containing exactly `N` entries
(flat arrays of length `3N` with item size 3). -/
theorem createButterflyGeometry_C2_buffer_sizes (N : ℕ) (hsl : HSL) (hN : 0 < N) :
    ((createButterflyGeometry (N : ℤ) hsl).1.position.count = N ∧
     (createButterflyGeometry (N : ℤ) hsl).2.position.count = N ∧
     (createButterflyGeometry (N : ℤ) hsl).1.color.count = N ∧
     (createButterflyGeometry (N : ℤ) hsl).2.color.count = N) ∧
    ((createButterflyGeometry (N : ℤ) hsl).1.position.array.length = 3 * N ∧
     (createButterflyGeometry (N : ℤ) hsl).2.position.array.length = 3 * N ∧
     (createButterflyGeometry (N : ℤ) hsl).1.color.array.length = 3 * N ∧
     (createButterflyGeometry (N : ℤ) hsl).2.color.array.length = 3 * N) ∧
    ((createButterflyGeometry (N : ℤ) hsl).1.position.itemSize = 3 ∧
     (createButterflyGeometry (N : ℤ) hsl).2.position.itemSize = 3 ∧
     (createButterflyGeometry (N : ℤ) hsl).1.color.itemSize = 3 ∧
     (createButterflyGeometry (N : ℤ) hsl).2.color.itemSize = 3) := by
  have hn : ((N : ℤ)).toNat = N := by omega
  simp [createButterflyGeometry, BufferAttribute.count, tripleList_length, hn,
    Nat.mul_div_cancel_left]

/-- Witness for C2 at `N = 2`, `hsl = (0.85, 0.8, 0.5)`. -/
theorem createButterflyGeometry_C2_witness :
    ((createButterflyGeometry ((2 : ℕ) : ℤ) ⟨0.85, 0.8, 0.5⟩).1.position.count = 2 ∧
     (createButterflyGeometry ((2 : ℕ) : ℤ) ⟨0.85, 0.8, 0.5⟩).2.position.count = 2 ∧
     (createButterflyGeometry ((2 : ℕ) : ℤ) ⟨0.85, 0.8, 0.5⟩).1.color.count = 2 ∧
     (createButterflyGeometry ((2 : ℕ) : ℤ) ⟨0.85, 0.8, 0.5⟩).2.color.count = 2) ∧
    ((createButterflyGeometry ((2 : ℕ) : ℤ) ⟨0.85, 0.8, 0.5⟩).1.position.array.length = 3 * 2 ∧
     (createButterflyGeometry ((2 : ℕ) : ℤ) ⟨0.85, 0.8, 0.5⟩).2.position.array.length = 3 * 2 ∧
     (createButterflyGeometry ((2 : ℕ) : ℤ) ⟨0.85, 0.8, 0.5⟩).1.color.array.length = 3 * 2 ∧
     (createButterflyGeometry ((2 : ℕ) : ℤ) ⟨0.85, 0.8, 0.5⟩).2.color.array.length = 3 * 2) ∧
    ((createButterflyGeometry ((2 : ℕ) : ℤ) ⟨0.85, 0.8, 0.5⟩).1.position.itemSize = 3 ∧
     (createButterflyGeometry ((2 : ℕ) : ℤ) ⟨0.85, 0.8, 0.5⟩).2.position.itemSize = 3 ∧
     (createButterflyGeometry ((2 : ℕ) : ℤ) ⟨0.85, 0.8, 0.5⟩).1.color.itemSize = 3 ∧
     (createButterflyGeometry ((2 : ℕ) : ℤ) ⟨0.85, 0.8, 0.5⟩).2.color.itemSize = 3) :=
  createButterflyGeometry_C2_buffer_sizes 2 ⟨0.85, 0.8, 0.5⟩ (by norm_num)

/-- C3: for every integer `N > 0`, every index `i ∈ [0, N)` and every hsl
input, the right point at index `i` equals `(−x, y, z)` where the left
point at index `i` is `(x, y, z)` — an exact x-mirror at every index. -/
theorem createButterflyGeometry_C3_right_mirror (N i : ℕ) (hsl : HSL)
    (hN : 0 < N) (hi : i < N) :
    (createButterflyGeometry (N : ℤ) hsl).2.position.triple i =
      (-((createButterflyGeometry (N : ℤ) hsl).1.position.triple i).1,
       ((createButterflyGeometry (N : ℤ) hsl).1.position.triple i).2.1,
       ((createButterflyGeometry (N : ℤ) hsl).1.position.triple i).2.2) := by
  rw [rightPoint_tripleAt N i hsl hi, leftPoint_tripleAt N i hsl hi]
  rfl

/-- Witness for C3 at `N = 2`, `i = 1`, `hsl = (0.85, 0.8, 0.5)`. -/
theorem createButterflyGeometry_C3_witness :
    (createButterflyGeometry ((2 : ℕ) : ℤ) ⟨0.85, 0.8, 0.5⟩).2.position.triple 1 =
      (-((createButterflyGeometry ((2 : ℕ) : ℤ) ⟨0.85, 0.8, 0.5⟩).1.position.triple 1).1,
       ((createButterflyGeometry ((2 : ℕ) : ℤ) ⟨0.85, 0.8, 0.5⟩).1.position.triple 1).2.1,
       ((createButterflyGeometry ((2 : ℕ) : ℤ) ⟨0.85, 0.8, 0.5⟩).1.position.triple 1).2.2) :=
  createButterflyGeometry_C3_right_mirror 2 1 ⟨0.85, 0.8, 0.5⟩ (by norm_num) (by norm_num)

/-- C9: for every `N ≤ 0` and every hsl input,
`createButterflyGeometry(N, hsl)` returns empty point and colour buffers
(zero vertices in each of the three buffers); the definition is total, so
no error is raised. -/
theorem createButterflyGeometry_C9_nonpositive_empty (steps : ℤ) (hsl : HSL)
    (hs : steps ≤ 0) :
    (createButterflyGeometry steps hsl).1.position.array = [] ∧
    (createButterflyGeometry steps hsl).2.position.array = [] ∧
    (createButterflyGeometry steps hsl).1.color.array = [] ∧
    (createButterflyGeometry steps hsl).2.color.array = [] ∧
    (createButterflyGeometry steps hsl).1.position.count = 0 ∧
    (createButterflyGeometry steps hsl).2.position.count = 0 ∧
    (createButterflyGeometry steps hsl).1.color.count = 0 ∧
    (createButterflyGeometry steps hsl).2.color.count = 0 := by
  have h0 : steps.toNat = 0 := by omega
  simp [createButterflyGeometry, h0, tripleList, BufferAttribute.count]

/-- Witness for C9 at `steps = -3`, `hsl = (0.85, 0.8, 0.5)`. -/
theorem createButterflyGeometry_C9_witness :
    (createButterflyGeometry (-3) ⟨0.85, 0.8, 0.5⟩).1.position.array = [] ∧
    (createButterflyGeometry (-3) ⟨0.85, 0.8, 0.5⟩).2.position.array = [] ∧
    (createButterflyGeometry (-3) ⟨0.85, 0.8, 0.5⟩).1.color.array = [] ∧
    (createButterflyGeometry (-3) ⟨0.85, 0.8, 0.5⟩).2.color.array = [] ∧
    (createButterflyGeometry (-3) ⟨0.85, 0.8, 0.5⟩).1.position.count = 0 ∧
    (createButterflyGeometry (-3) ⟨0.85, 0.8, 0.5⟩).2.position.count = 0 ∧
    (createButterflyGeometry (-3) ⟨0.85, 0.8, 0.5⟩).1.color.count = 0 ∧
    (createButterflyGeometry (-3) ⟨0.85, 0.8, 0.5⟩).2.color.count = 0 :=
  createButterflyGeometry_C9_nonpositive_empty (-3) ⟨0.85, 0.8, 0.5⟩ (by norm_num)

/-- C10: for every integer `N > 0` and every hsl input, the first vertex
(index 0) of the left and right point buffers is the identical point
`(0, r(0), 0)`: at `t = 0` we get `x = r·sin 0 = 0` and
`z = 0.5·sin 0 = 0`, so the mirror maps the first vertex to itself. -/
theorem createButterflyGeometry_C10_first_vertex (N : ℕ) (hsl : HSL)
    (hN : 0 < N) :
    (createButterflyGeometry (N : ℤ) hsl).1.position.triple 0 = (0, rOf 0, 0) ∧
    (createButterflyGeometry (N : ℤ) hsl).2.position.triple 0 =
      (createButterflyGeometry (N : ℤ) hsl).1.position.triple 0 := by
  rw [leftPoint_tripleAt N 0 hsl hN, rightPoint_tripleAt N 0 hsl hN]
  have ht : tOf (N : ℤ) 0 = 0 := by simp [tOf]
  constructor
  · simp [leftPoint, ht]
  · simp [rightPoint, leftPoint, ht]

/-- Witness for C10 at `N = 5`, `hsl = (0.85, 0.8, 0.5)`. -/
theorem createButterflyGeometry_C10_witness :
    (createButterflyGeometry ((5 : ℕ) : ℤ) ⟨0.85, 0.8, 0.5⟩).1.position.triple 0 =
      (0, rOf 0, 0) ∧
    (createButterflyGeometry ((5 : ℕ) : ℤ) ⟨0.85, 0.8, 0.5⟩).2.position.triple 0 =
      (createButterflyGeometry ((5 : ℕ) : ℤ) ⟨0.85, 0.8, 0.5⟩).1.position.triple 0 :=
  createButterflyGeometry_C10_first_vertex 5 ⟨0.85, 0.8, 0.5⟩ (by norm_num)

lemma colorAt_formula (N i : ℕ) (hsl : HSL) :
    colorAt (N : ℤ) hsl i =
      setHSL (jsMod (hsl.h - 0.3 * ((i : ℝ) / (N : ℝ)) + 1) 1) hsl.s
        (hsl.l * ((i : ℝ) / (N : ℝ))) := by
  simp only [colorAt, hueArg]
  push_cast
  rfl

/-- C4: for every integer `N > 0`, every index `i ∈ [0, N)` and every hsl
input, the colour at index `i` is the HSL colour with hue
`(h − 0.3·(i/N) + 1) mod 1`, saturation `s` and lightness `l·(i/N)`
converted to an RGB triple, and this triple is identical for the left and
right variants (one shared colour buffer attached to both geometries). -/
theorem createButterflyGeometry_C4_color_formula (N i : ℕ) (hsl : HSL)
    (hN : 0 < N) (hi : i < N) :
    (createButterflyGeometry (N : ℤ) hsl).1.color.triple i =
      setHSL (jsMod (hsl.h - 0.3 * ((i : ℝ) / (N : ℝ)) + 1) 1) hsl.s
        (hsl.l * ((i : ℝ) / (N : ℝ))) ∧
    (createButterflyGeometry (N : ℤ) hsl).2.color.triple i =
      (createButterflyGeometry (N : ℤ) hsl).1.color.triple i ∧
    (createButterflyGeometry (N : ℤ) hsl).2.color =
      (createButterflyGeometry (N : ℤ) hsl).1.color := by
  refine ⟨?_, rfl, rfl⟩
  rw [colorAt_tripleAt N i hsl hi, colorAt_formula N i hsl]

/-- Witness for C4 at `N = 2`, `i = 1`, `hsl = (0.85, 0.8, 0.5)`. -/
theorem createButterflyGeometry_C4_witness :
    (createButterflyGeometry ((2 : ℕ) : ℤ) ⟨0.85, 0.8, 0.5⟩).1.color.triple 1 =
      setHSL (jsMod ((HSL.mk 0.85 0.8 0.5).h - 0.3 * (((1 : ℕ) : ℝ) / ((2 : ℕ) : ℝ)) + 1) 1)
        (HSL.mk 0.85 0.8 0.5).s ((HSL.mk 0.85 0.8 0.5).l * (((1 : ℕ) : ℝ) / ((2 : ℕ) : ℝ))) ∧
    (createButterflyGeometry ((2 : ℕ) : ℤ) ⟨0.85, 0.8, 0.5⟩).2.color.triple 1 =
      (createButterflyGeometry ((2 : ℕ) : ℤ) ⟨0.85, 0.8, 0.5⟩).1.color.triple 1 ∧
    (createButterflyGeometry ((2 : ℕ) : ℤ) ⟨0.85, 0.8, 0.5⟩).2.color =
      (createButterflyGeometry ((2 : ℕ) : ℤ) ⟨0.85, 0.8, 0.5⟩).1.color :=
  createButterflyGeometry_C4_color_formula 2 1 ⟨0.85, 0.8, 0.5⟩ (by norm_num) (by norm_num)

/-- C5: the lightness parameter used for the colour at index `i` is the
third argument `l·(i/N)` passed to `setHSL`; it is 0 at `i = 0`, it is
monotonically non-decreasing in `i` for fixed `l ≥ 0`, and the linear ramp
reaches `l` at the endpoint `i = N`. -/
theorem createButterflyGeometry_C5_lightness_ramp (N : ℕ) (hsl : HSL)
    (hN : 0 < N) (hl : 0 ≤ hsl.l) :
    (∀ i : ℕ, colorAt (N : ℤ) hsl i =
        setHSL (hueArg hsl.h ((i : ℝ) / (N : ℝ))) hsl.s (lightnessArg (N : ℤ) hsl i)) ∧
    lightnessArg (N : ℤ) hsl 0 = 0 ∧
    (∀ i j : ℕ, i ≤ j →
      lightnessArg (N : ℤ) hsl i ≤ lightnessArg (N : ℤ) hsl j) ∧
    hsl.l * ((N : ℝ) / (N : ℝ)) = hsl.l := by
  have hN' : (0 : ℝ) < (N : ℝ) := by exact_mod_cast hN
  refine ⟨?_, ?_, ?_, ?_⟩
  · intro i
    simp only [colorAt, lightnessArg]
    push_cast
    rfl
  · simp [lightnessArg]
  · intro i j hij
    simp only [lightnessArg]
    push_cast
    gcongr
  · rw [div_self (ne_of_gt hN'), mul_one]

/-- Witness for C5 at `N = 4`, `hsl = (0.85, 0.8, 0.5)`. -/
theorem createButterflyGeometry_C5_witness :
    (∀ i : ℕ, colorAt ((4 : ℕ) : ℤ) ⟨0.85, 0.8, 0.5⟩ i =
        setHSL (hueArg (HSL.mk 0.85 0.8 0.5).h ((i : ℝ) / ((4 : ℕ) : ℝ)))
          (HSL.mk 0.85 0.8 0.5).s (lightnessArg ((4 : ℕ) : ℤ) ⟨0.85, 0.8, 0.5⟩ i)) ∧
    lightnessArg ((4 : ℕ) : ℤ) ⟨0.85, 0.8, 0.5⟩ 0 = 0 ∧
    (∀ i j : ℕ, i ≤ j →
      lightnessArg ((4 : ℕ) : ℤ) ⟨0.85, 0.8, 0.5⟩ i ≤
        lightnessArg ((4 : ℕ) : ℤ) ⟨0.85, 0.8, 0.5⟩ j) ∧
    (HSL.mk 0.85 0.8 0.5).l * (((4 : ℕ) : ℝ) / ((4 : ℕ) : ℝ)) = (HSL.mk 0.85 0.8 0.5).l :=
  createButterflyGeometry_C5_lightness_ramp 4 ⟨0.85, 0.8, 0.5⟩ (by norm_num) (by norm_num)

lemma jsMod_one_of_nonneg (x : ℝ) (hx : 0 ≤ x) : jsMod x 1 = Int.fract x := by
  rw [jsMod, jsTrunc, div_one, if_pos hx, one_mul]
  rfl

/-- C6: for every `h ∈ [0,1]` and every `pct ∈ [0,1]`, the hue value
`(h − 0.3·pct + 1) mod 1` computed on line 42 lies in `[0,1)` — never
negative and never greater than 1; in particular for `h = 0.85` and
`pct = 1` the hue equals `(0.85 − 0.3 + 1) mod 1 = 0.55`. -/
theorem hueArg_C6_range :
    (∀ h pct : ℝ, 0 ≤ h → h ≤ 1 → 0 ≤ pct → pct ≤ 1 →
      0 ≤ hueArg h pct ∧ hueArg h pct < 1) ∧
    hueArg 0.85 1 = 0.55 := by
  constructor
  · intro h pct h0 h1 p0 p1
    have hx : (0 : ℝ) ≤ h - 0.3 * pct + 1 := by nlinarith
    rw [hueArg, jsMod_one_of_nonneg _ hx]
    exact ⟨Int.fract_nonneg _, Int.fract_lt_one _⟩
  · have hx : (0 : ℝ) ≤ 0.85 - 0.3 * 1 + 1 := by norm_num
    rw [hueArg, jsMod_one_of_nonneg _ hx]
    have he : (0.85 - 0.3 * 1 + 1 : ℝ) = 1.55 := by norm_num
    rw [he, Int.fract]
    have hf : ⌊(1.55 : ℝ)⌋ = 1 := by
      rw [Int.floor_eq_iff]
      norm_num
    rw [hf]
    norm_num

/-- Witness for C6: the bound instantiated at `h = 0.2`, `pct = 0.5`. -/
theorem hueArg_C6_witness :
    0 ≤ hueArg 0.2 0.5 ∧ hueArg 0.2 0.5 < 1 :=
  hueArg_C6_range.1 0.2 0.5 (by norm_num) (by norm_num) (by norm_num) (by norm_num)

/-- C7: every assignment of a new geometry to a wing performed by
`updateButterfly` is preceded, in the trace of the same call, by the
disposal of that wing's outgoing geometry: the old geometry is never
replaced without first being released. -/
theorem updateButterfly_C7_dispose_before_assign (s : Settings) (st : AppState)
    (j : ℕ) (w : WingId) (g : ℕ)
    (hj : ((updateButterfly s st).2)[j]? = some (GeomEvent.assign w g)) :
    ∃ i, i < j ∧ ((updateButterfly s st).2)[i]? =
      some (GeomEvent.dispose
        (if w = WingId.left then st.leftId else st.rightId)) := by
  have htr : (updateButterfly s st).2 =
      [GeomEvent.dispose st.leftId, GeomEvent.dispose st.rightId,
       GeomEvent.assign WingId.left st.nextId,
       GeomEvent.assign WingId.right (st.nextId + 1)] := rfl
  rw [htr] at hj ⊢
  rcases j with _ | _ | _ | _ | j
  · simp at hj
  · simp at hj
  · obtain ⟨hw, hg⟩ := by simpa using hj
    subst hw
    exact ⟨0, by omega, by simp⟩
  · obtain ⟨hw, hg⟩ := by simpa using hj
    subst hw
    exact ⟨1, by omega, by simp⟩
  · simp at hj

/-- Witness for C7: with the concrete initial state, the assignment to the
left wing (trace index 2) is preceded by the disposal of its old geometry. -/
theorem updateButterfly_C7_witness :
    ∃ i, i < 2 ∧
      ((updateButterfly ⟨2000, ⟨0.85, 0.8, 0.5⟩⟩ initialState).2)[i]? =
        some (GeomEvent.dispose
          (if WingId.left = WingId.left then initialState.leftId
           else initialState.rightId)) :=
  updateButterfly_C7_dispose_before_assign ⟨2000, ⟨0.85, 0.8, 0.5⟩⟩ initialState
    2 WingId.left 2 rfl

/-- C8: calling `updateButterfly` twice in succession with an identical
settings record produces geometry buffers equal to those of a single call,
and afterwards exactly one live geometry pair is attached to the two wings
(no accumulation of retained old buffers), provided the live set before
the calls consisted exactly of the attached pair. -/
theorem updateButterfly_C8_idempotent (s : Settings) (st : AppState)
    (hlive : st.live = {st.leftId, st.rightId}) :
    ((updateButterfly s (updateButterfly s st).1).1.leftGeom =
        (updateButterfly s st).1.leftGeom ∧
      (updateButterfly s (updateButterfly s st).1).1.rightGeom =
        (updateButterfly s st).1.rightGeom) ∧
    (updateButterfly s (updateButterfly s st).1).1.live =
      {(updateButterfly s (updateButterfly s st).1).1.leftId,
       (updateButterfly s (updateButterfly s st).1).1.rightId} ∧
    (updateButterfly s (updateButterfly s st).1).1.leftId ≠
      (updateButterfly s (updateButterfly s st).1).1.rightId := by
  refine ⟨⟨rfl, rfl⟩, ?_, ?_⟩
  · show ((st.live \ {st.leftId, st.rightId} ∪ {st.nextId, st.nextId + 1}) \
        {st.nextId, st.nextId + 1}) ∪ {st.nextId + 2, st.nextId + 2 + 1} =
      {st.nextId + 2, st.nextId + 2 + 1}
    rw [hlive, Finset.sdiff_self, Finset.empty_union, Finset.sdiff_self,
      Finset.empty_union]
  · show st.nextId + 2 ≠ st.nextId + 2 + 1
    omega

/-- Witness for C8 with the concrete initial state and the startup
settings. -/
theorem updateButterfly_C8_witness :
    ((updateButterfly ⟨2000, ⟨0.85, 0.8, 0.5⟩⟩
        (updateButterfly ⟨2000, ⟨0.85, 0.8, 0.5⟩⟩ initialState).1).1.leftGeom =
        (updateButterfly ⟨2000, ⟨0.85, 0.8, 0.5⟩⟩ initialState).1.leftGeom ∧
      (updateButterfly ⟨2000, ⟨0.85, 0.8, 0.5⟩⟩
        (updateButterfly ⟨2000, ⟨0.85, 0.8, 0.5⟩⟩ initialState).1).1.rightGeom =
        (updateButterfly ⟨2000, ⟨0.85, 0.8, 0.5⟩⟩ initialState).1.rightGeom) ∧
    (updateButterfly ⟨2000, ⟨0.85, 0.8, 0.5⟩⟩
      (updateButterfly ⟨2000, ⟨0.85, 0.8, 0.5⟩⟩ initialState).1).1.live =
      {(updateButterfly ⟨2000, ⟨0.85, 0.8, 0.5⟩⟩
          (updateButterfly ⟨2000, ⟨0.85, 0.8, 0.5⟩⟩ initialState).1).1.leftId,
       (updateButterfly ⟨2000, ⟨0.85, 0.8, 0.5⟩⟩
          (updateButterfly ⟨2000, ⟨0.85, 0.8, 0.5⟩⟩ initialState).1).1.rightId} ∧
    (updateButterfly ⟨2000, ⟨0.85, 0.8, 0.5⟩⟩
      (updateButterfly ⟨2000, ⟨0.85, 0.8, 0.5⟩⟩ initialState).1).1.leftId ≠
      (updateButterfly ⟨2000, ⟨0.85, 0.8, 0.5⟩⟩
        (updateButterfly ⟨2000, ⟨0.85, 0.8, 0.5⟩⟩ initialState).1).1.rightId :=
  updateButterfly_C8_idempotent ⟨2000, ⟨0.85, 0.8, 0.5⟩⟩ initialState rfl
